import Mathlib

/-!
Verification of the Flask orchestration service in `src/application.py`
(video upload → transcode → S3 store → Rekognition face-detection polling,
plus a GPT passthrough endpoint).

The Python code is shallowly embedded: each handler becomes a Lean function
parameterised by its external collaborators (transcoder, object store,
detection service, completion API), which the source invokes through
module-level clients.  The detection service is scripted as a list of
status responses consumed one per `get_face_detection` call; observable
side effects of a request are collected in an explicit trace.
-/

namespace App

/-- `ALLOWED_EXTENSIONS = {'mp4', 'mov', 'avi'}` (src/application.py line 30). -/
def ALLOWED_EXTENSIONS : List String := ["mp4", "mov", "avi"]

/-- `S3_BUCKET = "jchang-fbla-bucket"` (src/application.py line 25). -/
def S3_BUCKET : String := "jchang-fbla-bucket"

/--
One response of `rekognition_client.get_face_detection`.  JSON dictionaries
are embedded as association lists of string pairs; fields the service may
omit are `Option`-valued (`response.get` with a default reads them).
-/
structure FaceDetectionResponse where
  JobStatus : String
  VideoMetadata : Option (List (String × String))
  Faces : Option (List (List (String × String)))
  NextToken : Option String
  StatusMessage : Option String
deriving DecidableEq, Repr

/--
The result dictionary built by `poll_face_detection` on `SUCCEEDED`
(src/application.py lines 139-144).  The structure has exactly the four
keys of the Python dict literal: `status`, `video_metadata`, `faces`,
`next_token`.
-/
structure PollResult where
  status : String
  video_metadata : List (String × String)
  faces : List (List (String × String))
  next_token : String
deriving DecidableEq, Repr

/--
How one call of `poll_face_detection` can end: return a result dict,
raise an `Exception` carrying a message, or — when the scripted service
has no further responses — still be blocked inside the `while True` loop.
-/
inductive PollOutcome where
  | success (r : PollResult)
  | failure (msg : String)
  | pending
deriving DecidableEq, Repr

/--
`poll_face_detection` (src/application.py lines 120-151), run against a
scripted service that answers the i-th `get_face_detection` call with the
i-th element of `script`.  Returns the outcome together with the number of
`get_face_detection` calls made and the list of `time.sleep` durations, in
order (the source sleeps `5` after each `IN_PROGRESS` response).
-/
def poll_face_detection : List FaceDetectionResponse → PollOutcome × Nat × List Nat
  | [] => (PollOutcome.pending, 0, [])
  | r :: rest =>
    if r.JobStatus = "SUCCEEDED" then
      (PollOutcome.success
        { status := "SUCCEEDED"
          video_metadata := r.VideoMetadata.getD []
          faces := r.Faces.getD []
          next_token := r.NextToken.getD "" }, 1, [])
    else if r.JobStatus = "IN_PROGRESS" then
      let rec_result := poll_face_detection rest
      (rec_result.1, rec_result.2.1 + 1, 5 :: rec_result.2.2)
    else
      (PollOutcome.failure (r.StatusMessage.getD "Face detection failed"), 1, [])

/-- `c != '.'`, the predicate guiding the search for the last dot. -/
def notDot (c : Char) : Bool := c != '.'

/--
`filename.rsplit('.', 1)[1]`: the characters after the last `'.'` of the
list (meaningful when a `'.'` occurs; `allowed_file` only consults it after
checking `'.' in filename`, mirroring the short-circuit `and`).
-/
def afterLastDot (l : List Char) : List Char :=
  (l.reverse.takeWhile notDot).reverse

/--
`allowed_file` (src/application.py lines 91-101):
`'.' in filename and filename.rsplit('.', 1)[1].lower() in ALLOWED_EXTENSIONS`.
`str.lower` is embedded as `Char.toLower` per character (the allowed
extensions are pure ASCII).
-/
def allowed_file (filename : String) : Bool :=
  filename.toList.contains '.' &&
    ALLOWED_EXTENSIONS.contains
      (String.mk ((afterLastDot filename.toList).map Char.toLower))

/-- ASCII whitespace recognised by Python `str.split()` with no arguments. -/
def pyIsSpace (c : Char) : Bool :=
  c = ' ' || c = '\t' || c = '\n' || c = '\r' || c = Char.ofNat 11 || c = Char.ofNat 12

/-- The character class kept by werkzeug's filename regex `[A-Za-z0-9_.-]`. -/
def asciiKeep (c : Char) : Bool :=
  ('A' ≤ c && c ≤ 'Z') || ('a' ≤ c && c ≤ 'z') || ('0' ≤ c && c ≤ '9') ||
    c = '_' || c = '.' || c = '-'

/-- Membership in the strip set `"._"`. -/
def isDotUnderscore (c : Char) : Bool := c = '.' || c = '_'

/-- Python `str.rstrip(set)`: drop the maximal trailing run of set members. -/
def pyRstrip (p : Char → Bool) : List Char → List Char
  | [] => []
  | c :: cs =>
    match pyRstrip p cs with
    | [] => if p c then [] else [c]
    | r@(_ :: _) => c :: r

/-- Python `str.strip(set)`: drop leading and trailing runs of set members. -/
def pyStrip (p : Char → Bool) (l : List Char) : List Char :=
  pyRstrip p (l.dropWhile p)

/-- Python `str.split()`: whitespace-delimited words, empties discarded. -/
def pySplitWs (l : List Char) : List (List Char) :=
  (l.splitOnP pyIsSpace).filter (fun w => !w.isEmpty)

/--
Model of `werkzeug.utils.secure_filename`, the sanitizer
`save_uploaded_file` applies to the client filename (src/application.py
line 114; werkzeug is a third-party dependency, embedded from its
implementation).  On POSIX: normalize to ASCII (the NFKD decomposition
step is omitted — non-ASCII characters are dropped; any separator a
decomposition could produce would be removed by the later steps anyway),
replace `os.sep` (`'/'`) by spaces, collapse whitespace runs to `'_'` via
`"_".join(filename.split())`, delete every character outside
`[A-Za-z0-9_.-]`, and strip leading/trailing `'.'` and `'_'`.  The
Windows-only reserved-device-name branch is omitted.
-/
def secure_filename (filename : String) : String :=
  let ascii := filename.toList.filter (fun c => decide (c.toNat < 128))
  let nosep := ascii.map (fun c => if c = '/' then ' ' else c)
  let joined := List.intercalate ['_'] (pySplitWs nosep)
  let kept := joined.filter asciiKeep
  String.mk (pyStrip isDotUnderscore kept)

/--
POSIX `os.path.join` on two components: an absolute second component (one
starting with `'/'`, i.e. whose first character is `'/'`) replaces the
first; otherwise the parts are glued with exactly one `'/'`.
-/
def posix_join (a b : String) : String :=
  if b.toList.head? = some '/' then b
  else if a = "" ∨ a.toList.getLast? = some '/' then a ++ b
  else a ++ "/" ++ b

/-- POSIX `os.path.basename`: the characters after the last `'/'`. -/
def basename (p : String) : String :=
  String.mk ((p.toList.reverse.takeWhile (fun c => c != '/')).reverse)

/--
The path computed and returned by `save_uploaded_file`
(src/application.py lines 103-118):
`os.path.join(upload_folder, secure_filename(file.filename))`, which is
also the path handed to `file.save`.
-/
def save_uploaded_file_path (upload_folder client_filename : String) : String :=
  posix_join upload_folder (secure_filename client_filename)

/-- JSON response bodies produced by the handlers. -/
inductive Body where
  | errorObj (msg : String)
  | detection (r : PollResult)
  | responseObj (msg : String)
deriving DecidableEq, Repr

/-- A finished HTTP response, or the handler blocking forever in the
unbounded polling loop. -/
inductive HttpOutcome where
  | resp (status : Nat) (body : Body)
  | hang
deriving DecidableEq, Repr

/-- Observable side effects of the upload pipeline, recorded in the order
the source performs them. -/
inductive Effect where
  | diskWrite (path : String)
  | transcodeCall (path : String)
  | storeCall (path bucket key : String)
  | startJobCall (bucket key : String)
  | pollCall (jobId : String)
deriving DecidableEq, Repr

/--
The external collaborators of `src/application.py`, which the source
reaches through module-level clients: `file.save`,
`convert_video_to_aws_rekognition` (the `convert` module),
`s3_client.upload_file`, `rekognition_client.start_face_detection`, and
the scripted `get_face_detection` responses per job id.  Fallible calls
return `Except String` (an `Exception` message on `error`).
-/
structure Env where
  upload_folder : String
  save : String → Except String Unit
  convert_video_to_aws_rekognition : String → Except String String
  s3_upload_file : String → String → String → Except String Unit
  start_face_detection : String → String → Except String String
  face_detection_script : String → List FaceDetectionResponse

/--
`process_face_detection` (src/application.py lines 153-178): start a
detection job on `S3_BUCKET`/`video_name`, poll it, answer `200` with the
result payload, or `500` with the exception message its own
`try`/`except` caught.
-/
def process_face_detection (env : Env) (video_name : String) :
    HttpOutcome × List Effect :=
  match env.start_face_detection S3_BUCKET video_name with
  | Except.error e =>
    (HttpOutcome.resp 500 (Body.errorObj e),
      [Effect.startJobCall S3_BUCKET video_name])
  | Except.ok job_id =>
    match poll_face_detection (env.face_detection_script job_id) with
    | (PollOutcome.success r, _, _) =>
      (HttpOutcome.resp 200 (Body.detection r),
        [Effect.startJobCall S3_BUCKET video_name, Effect.pollCall job_id])
    | (PollOutcome.failure e, _, _) =>
      (HttpOutcome.resp 500 (Body.errorObj e),
        [Effect.startJobCall S3_BUCKET video_name, Effect.pollCall job_id])
    | (PollOutcome.pending, _, _) =>
      (HttpOutcome.hang,
        [Effect.startJobCall S3_BUCKET video_name, Effect.pollCall job_id])

/-- The `file` part of a multipart upload: its client-supplied name. -/
structure UploadedFile where
  filename : String
deriving DecidableEq, Repr

/-- A request to `POST /upload`: `request.files` may lack the `file` key. -/
structure UploadRequest where
  file : Option UploadedFile
deriving DecidableEq, Repr

/--
The `POST /upload` handler `upload_video` (src/application.py lines
249-296): validate the file part, save it under the sanitized name in the
upload folder, transcode, upload the converted artifact to `S3_BUCKET`
under its basename, then hand off to `process_face_detection`.  Any stage
exception is caught and answered as `500` with the exception's message.
-/
def upload_video (env : Env) (req : UploadRequest) :
    HttpOutcome × List Effect :=
  match req.file with
  | none => (HttpOutcome.resp 400 (Body.errorObj "No file part"), [])
  | some file =>
    if file.filename = "" then
      (HttpOutcome.resp 400 (Body.errorObj "No file selected"), [])
    else if !(allowed_file file.filename) then
      (HttpOutcome.resp 400
        (Body.errorObj "Invalid file type. Allowed types: mp4, mov, avi"), [])
    else
      let saved_file_path := save_uploaded_file_path env.upload_folder file.filename
      match env.save saved_file_path with
      | Except.error e =>
        (HttpOutcome.resp 500 (Body.errorObj e),
          [Effect.diskWrite saved_file_path])
      | Except.ok _ =>
        match env.convert_video_to_aws_rekognition saved_file_path with
        | Except.error e =>
          (HttpOutcome.resp 500 (Body.errorObj e),
            [Effect.diskWrite saved_file_path,
             Effect.transcodeCall saved_file_path])
        | Except.ok converted_path =>
          let converted_filename := basename converted_path
          match env.s3_upload_file converted_path S3_BUCKET converted_filename with
          | Except.error e =>
            (HttpOutcome.resp 500 (Body.errorObj e),
              [Effect.diskWrite saved_file_path,
               Effect.transcodeCall saved_file_path,
               Effect.storeCall converted_path S3_BUCKET converted_filename])
          | Except.ok _ =>
            let pfd := process_face_detection env converted_filename
            (pfd.1,
              [Effect.diskWrite saved_file_path,
               Effect.transcodeCall saved_file_path,
               Effect.storeCall converted_path S3_BUCKET converted_filename] ++ pfd.2)

/--
The `POST /gpt` handler `gpt_api` (src/application.py lines 214-244).
The JSON body is an association list; `data.get("input", "")` is
`(data.lookup "input").getD ""`; Python falsiness of the string is
emptiness.  `complete` is `gpt_client.chat.completions.create` returning
the texts of the choices; the source reads `choices[0].message.content`
(an empty choice list raises `IndexError`, caught by the handler's
`except`).  The returned `Bool` records whether `complete` was invoked.
-/
def gpt_api (complete : String → Except String (List String))
    (data : List (String × String)) : HttpOutcome × Bool :=
  let user_input := (data.lookup "input").getD ""
  if user_input = "" then
    (HttpOutcome.resp 400 (Body.errorObj "No input provided"), false)
  else
    match complete user_input with
    | Except.error e => (HttpOutcome.resp 500 (Body.errorObj e), true)
    | Except.ok [] =>
      (HttpOutcome.resp 500 (Body.errorObj "list index out of range"), true)
    | Except.ok (t :: _) => (HttpOutcome.resp 200 (Body.responseObj t), true)

/-- The result dict the source builds from a `SUCCEEDED` response (lines 139-144). -/
def buildResult (r : FaceDetectionResponse) : PollResult :=
  { status := "SUCCEEDED"
    video_metadata := r.VideoMetadata.getD []
    faces := r.Faces.getD []
    next_token := r.NextToken.getD "" }

/--
**C1.** If the service answers the first `n` status requests with
`IN_PROGRESS` and request `n+1` with `SUCCEEDED`, then `poll_face_detection`
makes exactly `n+1` `get_face_detection` calls, sleeps exactly `n` times for
5 time units (once after each `IN_PROGRESS` response, not after the terminal
one), and returns the result payload built from the final response.
-/
theorem poll_in_progress_then_succeeded
    (pre : List FaceDetectionResponse) (final : FaceDetectionResponse)
    (hpre : ∀ r ∈ pre, r.JobStatus = "IN_PROGRESS")
    (hfin : final.JobStatus = "SUCCEEDED") :
    poll_face_detection (pre ++ [final]) =
      (PollOutcome.success (buildResult final), pre.length + 1,
        List.replicate pre.length 5) := by
  induction pre with
  | nil =>
    simp [poll_face_detection, hfin, buildResult]
  | cons r rest ih =>
    have hr : r.JobStatus = "IN_PROGRESS" := hpre r (List.mem_cons_self r rest)
    have hrest : ∀ x ∈ rest, x.JobStatus = "IN_PROGRESS" := by
      intro x hx
      exact hpre x (List.mem_cons_of_mem r hx)
    have hne : r.JobStatus ≠ "SUCCEEDED" := by
      rw [hr]
      decide
    have hpoll : poll_face_detection (r :: (rest ++ [final])) =
        ((poll_face_detection (rest ++ [final])).1,
         (poll_face_detection (rest ++ [final])).2.1 + 1,
         5 :: (poll_face_detection (rest ++ [final])).2.2) := by
      simp [poll_face_detection, hne, hr]
    rw [List.cons_append, hpoll, ih hrest]
    simp [List.replicate_succ]

/-- **C1 witness**: the spec scenario `IN_PROGRESS, IN_PROGRESS, SUCCEEDED`. -/
theorem poll_in_progress_then_succeeded_witness :
    poll_face_detection
      [{ JobStatus := "IN_PROGRESS", VideoMetadata := none, Faces := none,
         NextToken := none, StatusMessage := none },
       { JobStatus := "IN_PROGRESS", VideoMetadata := none, Faces := none,
         NextToken := none, StatusMessage := none },
       { JobStatus := "SUCCEEDED", VideoMetadata := some [("FrameRate", "30")],
         Faces := some [[("Confidence", "99")]], NextToken := some "tok",
         StatusMessage := none }] =
      (PollOutcome.success
        { status := "SUCCEEDED", video_metadata := [("FrameRate", "30")],
          faces := [[("Confidence", "99")]], next_token := "tok" }, 3, [5, 5]) := by
  have h := poll_in_progress_then_succeeded
    [{ JobStatus := "IN_PROGRESS", VideoMetadata := none, Faces := none,
       NextToken := none, StatusMessage := none },
     { JobStatus := "IN_PROGRESS", VideoMetadata := none, Faces := none,
       NextToken := none, StatusMessage := none }]
    { JobStatus := "SUCCEEDED", VideoMetadata := some [("FrameRate", "30")],
      Faces := some [[("Confidence", "99")]], NextToken := some "tok",
      StatusMessage := none }
    (by decide) (by decide)
  simpa [buildResult] using h

/--
**C2.** On a status that is neither `SUCCEEDED` nor `IN_PROGRESS`, the
poller stops immediately (one `get_face_detection` call, no sleep) and
raises an exception whose message is exactly the service's `StatusMessage`
when present, and the generic default `"Face detection failed"` otherwise
(src/application.py lines 148-151).
-/
theorem poll_terminal_failure
    (r : FaceDetectionResponse) (rest : List FaceDetectionResponse)
    (h1 : r.JobStatus ≠ "SUCCEEDED") (h2 : r.JobStatus ≠ "IN_PROGRESS") :
    poll_face_detection (r :: rest) =
      (PollOutcome.failure (r.StatusMessage.getD "Face detection failed"), 1, []) ∧
    (∀ m, r.StatusMessage = some m →
      poll_face_detection (r :: rest) = (PollOutcome.failure m, 1, [])) ∧
    (r.StatusMessage = none →
      poll_face_detection (r :: rest) =
        (PollOutcome.failure "Face detection failed", 1, [])) := by
  refine ⟨?_, ?_, ?_⟩
  · simp [poll_face_detection, h1, h2]
  · intro m hm
    simp [poll_face_detection, h1, h2, hm]
  · intro hm
    simp [poll_face_detection, h1, h2, hm]

/-- **C2 witness**: `FAILED` with message `"corrupt video"` raises exactly it;
`FAILED` with no message raises the generic default. -/
theorem poll_terminal_failure_witness :
    poll_face_detection
      [{ JobStatus := "FAILED", VideoMetadata := none, Faces := none,
         NextToken := none, StatusMessage := some "corrupt video" }] =
      (PollOutcome.failure "corrupt video", 1, []) ∧
    poll_face_detection
      [{ JobStatus := "FAILED", VideoMetadata := none, Faces := none,
         NextToken := none, StatusMessage := none }] =
      (PollOutcome.failure "Face detection failed", 1, []) := by
  constructor
  · exact (poll_terminal_failure
      { JobStatus := "FAILED", VideoMetadata := none, Faces := none,
        NextToken := none, StatusMessage := some "corrupt video" } []
      (by decide) (by decide)).2.1 "corrupt video" rfl
  · exact (poll_terminal_failure
      { JobStatus := "FAILED", VideoMetadata := none, Faces := none,
        NextToken := none, StatusMessage := none } []
      (by decide) (by decide)).2.2 rfl

/--
**C9.** Whenever the poller returns normally, the result is a dict with
exactly the keys `status`, `video_metadata`, `faces`, `next_token` (the
fields of `PollResult`), `status` is the literal `"SUCCEEDED"`, and the
other three are read from the final response with defaults `{}` (empty
dict), `[]`, `""` when the fields are absent (src/application.py lines
138-144).
-/
theorem poll_success_shape
    (script : List FaceDetectionResponse) (res : PollResult)
    (n : Nat) (sleeps : List Nat)
    (h : poll_face_detection script = (PollOutcome.success res, n, sleeps)) :
    res.status = "SUCCEEDED" ∧
    ∃ r ∈ script, r.JobStatus = "SUCCEEDED" ∧
      res.video_metadata = r.VideoMetadata.getD [] ∧
      res.faces = r.Faces.getD [] ∧
      res.next_token = r.NextToken.getD "" := by
  induction script generalizing n sleeps with
  | nil =>
    simp [poll_face_detection] at h
  | cons r rest ih =>
    by_cases hs : r.JobStatus = "SUCCEEDED"
    · have hpoll : poll_face_detection (r :: rest) =
          (PollOutcome.success (buildResult r), 1, []) := by
        simp [poll_face_detection, hs, buildResult]
      rw [hpoll] at h
      simp only [Prod.mk.injEq, PollOutcome.success.injEq] at h
      obtain ⟨h1, -⟩ := h
      subst h1
      exact ⟨rfl, r, List.mem_cons_self r rest, hs, rfl, rfl, rfl⟩
    · by_cases hp : r.JobStatus = "IN_PROGRESS"
      · have hpoll : poll_face_detection (r :: rest) =
            ((poll_face_detection rest).1, (poll_face_detection rest).2.1 + 1,
              5 :: (poll_face_detection rest).2.2) := by
          simp [poll_face_detection, hs, hp]
        rw [hpoll] at h
        simp only [Prod.mk.injEq] at h
        obtain ⟨h1, -, -⟩ := h
        have hrec : poll_face_detection rest =
            (PollOutcome.success res, (poll_face_detection rest).2.1,
              (poll_face_detection rest).2.2) := by
          rw [← h1]
        obtain ⟨hst, r₀, hmem, hrest⟩ :=
          ih (poll_face_detection rest).2.1 (poll_face_detection rest).2.2 hrec
        exact ⟨hst, r₀, List.mem_cons_of_mem r hmem, hrest⟩
      · simp [poll_face_detection, hs, hp] at h

/-- **C9 witness**: a run whose final response omits all optional fields
yields the defaults empty dict, empty list, empty string. -/
theorem poll_success_shape_witness :
    ({ status := "SUCCEEDED", video_metadata := [], faces := [],
       next_token := "" } : PollResult).status = "SUCCEEDED" ∧
    ∃ r ∈ [({ JobStatus := "SUCCEEDED", VideoMetadata := none, Faces := none,
              NextToken := none, StatusMessage := none } : FaceDetectionResponse)],
      r.JobStatus = "SUCCEEDED" ∧
      ([] : List (String × String)) = r.VideoMetadata.getD [] ∧
      ([] : List (List (String × String))) = r.Faces.getD [] ∧
      "" = r.NextToken.getD "" :=
  poll_success_shape
    [{ JobStatus := "SUCCEEDED", VideoMetadata := none, Faces := none,
       NextToken := none, StatusMessage := none }]
    { status := "SUCCEEDED", video_metadata := [], faces := [], next_token := "" }
    1 [] (by decide)

/-- `takeWhile` stops exactly at the first element refuting the predicate. -/
theorem takeWhile_append_of_sat {α : Type} {p : α → Bool} :
    ∀ (l₁ : List α) (y : α) (l₂ : List α), (∀ x ∈ l₁, p x = true) → p y = false →
      (l₁ ++ y :: l₂).takeWhile p = l₁ := by
  intro l₁
  induction l₁ with
  | nil =>
    intro y l₂ _ hy
    simp [List.takeWhile_cons, hy]
  | cons a l ih =>
    intro y l₂ h₁ hy
    have ha : p a = true := h₁ a (List.mem_cons_self a l)
    have hl : ∀ x ∈ l, p x = true := fun x hx => h₁ x (List.mem_cons_of_mem a hx)
    simp [List.takeWhile_cons, ha, ih y l₂ hl hy]

/-- The first element surviving `dropWhile` refutes the predicate. -/
theorem dropWhile_head_not {α : Type} {p : α → Bool} :
    ∀ (l : List α) (x : α) (xs : List α), l.dropWhile p = x :: xs → p x = false := by
  intro l
  induction l with
  | nil =>
    intro x xs h
    simp at h
  | cons a l ih =>
    intro x xs h
    rw [List.dropWhile_cons] at h
    by_cases ha : p a = true
    · rw [if_pos ha] at h
      exact ih x xs h
    · rw [if_neg ha] at h
      cases h
      simpa using ha

/--
**C3.** `allowed_file filename` is `true` iff `filename` contains a `'.'`
and the lowercased substring after the last `'.'` is one of
`mp4`, `mov`, `avi` (comparison case-insensitive); in particular every
filename without a `'.'` is rejected.
-/
theorem allowed_file_spec (f : String) :
    (allowed_file f = true ↔
      ∃ pre ext : List Char, f.toList = pre ++ '.' :: ext ∧ '.' ∉ ext ∧
        ALLOWED_EXTENSIONS.contains (String.mk (ext.map Char.toLower)) = true) ∧
    ('.' ∉ f.toList → allowed_file f = false) := by
  have hdotFalse : notDot '.' = false := by decide
  constructor
  · constructor
    · intro h
      have hsplit := Bool.and_eq_true_iff.mp h
      have hmem : '.' ∈ f.toList := by
        have := hsplit.1
        simpa [List.contains, List.elem_iff] using this
      -- decompose at the last dot via takeWhile/dropWhile on the reverse
      set t := f.toList.reverse.takeWhile notDot with ht
      set d := f.toList.reverse.dropWhile notDot with hd
      have htd : t ++ d = f.toList.reverse := List.takeWhile_append_dropWhile ..
      have hdne : d ≠ [] := by
        intro hnil
        have hteq : t = f.toList.reverse := by
          rw [← htd, hnil, List.append_nil]
        have hmemt : '.' ∈ List.takeWhile notDot f.toList.reverse := by
          rw [← ht, hteq]
          exact List.mem_reverse.mpr hmem
        have hdot : notDot '.' = true := List.mem_takeWhile_imp hmemt
        rw [hdotFalse] at hdot
        exact Bool.false_ne_true hdot
      obtain ⟨x, xs, hdeq⟩ := List.exists_cons_of_ne_nil hdne
      have hx : notDot x = false := by
        refine dropWhile_head_not f.toList.reverse x xs ?_
        rw [← hd]
        exact hdeq
      have hxdot : x = '.' := by
        simpa [notDot] using hx
      have hrev : f.toList.reverse = t ++ '.' :: xs := by
        rw [← htd, hdeq, hxdot]
      have hlist : f.toList = xs.reverse ++ '.' :: t.reverse := by
        have := congrArg List.reverse hrev
        simpa [List.reverse_append] using this
      refine ⟨xs.reverse, t.reverse, hlist, ?_, ?_⟩
      · intro hdot
        have : notDot '.' = true :=
          List.mem_takeWhile_imp (List.mem_reverse.mp hdot)
        rw [hdotFalse] at this
        exact Bool.false_ne_true this
      · have hext : afterLastDot f.toList = t.reverse := by
          rw [afterLastDot, ← ht]
        have := hsplit.2
        rwa [hext] at this
    · rintro ⟨pre, ext, hlist, hnd, hcont⟩
      have hmem : '.' ∈ f.toList := by
        rw [hlist]
        exact List.mem_append_right pre (List.mem_cons_self _ _)
      have hrev : f.toList.reverse = ext.reverse ++ '.' :: pre.reverse := by
        rw [hlist]
        simp [List.reverse_append]
      have hext : afterLastDot f.toList = ext := by
        rw [afterLastDot, hrev,
          takeWhile_append_of_sat ext.reverse '.' pre.reverse ?_ hdotFalse,
          List.reverse_reverse]
        intro x hx
        have hxe : x ∈ ext := List.mem_reverse.mp hx
        have : x ≠ '.' := fun hc => hnd (hc ▸ hxe)
        simpa [notDot] using this
      rw [allowed_file, hext]
      refine Bool.and_eq_true_iff.mpr ⟨?_, hcont⟩
      simpa [List.contains, List.elem_iff] using hmem
  · intro hno
    rw [allowed_file]
    have : f.toList.contains '.' = false := by
      simpa [List.contains, List.elem_iff] using hno
    rw [this]
    rfl

/-- `pyRstrip` keeps a prefix of its input. -/
theorem pyRstrip_prefix {p : Char → Bool} :
    ∀ l : List Char, ∃ m, l = pyRstrip p l ++ m := by
  intro l
  induction l with
  | nil => exact ⟨[], rfl⟩
  | cons c cs ih =>
    obtain ⟨m, hm⟩ := ih
    cases hr : pyRstrip p cs with
    | nil =>
      by_cases hc : p c = true
      · refine ⟨c :: cs, ?_⟩
        have hstep : pyRstrip p (c :: cs) = [] := by
          simp [pyRstrip, hr, hc]
        rw [hstep, List.nil_append]
      · refine ⟨cs, ?_⟩
        have hstep : pyRstrip p (c :: cs) = [c] := by
          simp [pyRstrip, hr, hc]
        simp [hstep]
    | cons y ys =>
      refine ⟨m, ?_⟩
      have hstep : pyRstrip p (c :: cs) = c :: (y :: ys) := by
        simp [pyRstrip, hr]
      rw [hstep, List.cons_append, ← hr, ← hm]

/-- Every character of `pyStrip p l` is a character of `l`. -/
theorem mem_pyStrip {p : Char → Bool} (l : List Char) (x : Char)
    (hx : x ∈ pyStrip p l) : x ∈ l := by
  obtain ⟨m, hm⟩ := pyRstrip_prefix (p := p) (l.dropWhile p)
  have h1 : x ∈ l.dropWhile p := by
    rw [hm]
    exact List.mem_append_left m hx
  exact List.Sublist.mem h1 (List.dropWhile_sublist p)

/-- A nonempty `pyStrip` result starts with a character outside the set. -/
theorem pyStrip_head_not {p : Char → Bool} (l : List Char) (x : Char)
    (xs : List Char) (h : pyStrip p l = x :: xs) : p x = false := by
  obtain ⟨m, hm⟩ := pyRstrip_prefix (p := p) (l.dropWhile p)
  rw [pyStrip] at h
  rw [h] at hm
  exact dropWhile_head_not l x (xs ++ m) hm

/-- Every character of a sanitized filename is in `[A-Za-z0-9_.-]`. -/
theorem secure_filename_chars (f : String) :
    ∀ c ∈ (secure_filename f).toList, asciiKeep c = true := by
  intro c hc
  have hc' : c ∈ pyStrip isDotUnderscore
      ((List.intercalate ['_'] (pySplitWs
        ((f.toList.filter (fun c => decide (c.toNat < 128))).map
          (fun c => if c = '/' then ' ' else c)))).filter asciiKeep) := hc
  exact (List.mem_filter.mp (mem_pyStrip _ c hc')).2

/-- A sanitized filename never contains a path separator. -/
theorem secure_filename_no_slash (f : String) :
    '/' ∉ (secure_filename f).toList := by
  intro h
  exact absurd (secure_filename_chars f '/' h) (by decide)

/-- A nonempty sanitized filename does not start with `'.'` or `'_'`. -/
theorem secure_filename_head_ok (f : String) (x : Char) (xs : List Char)
    (h : (secure_filename f).toList = x :: xs) : isDotUnderscore x = false := by
  have h' : pyStrip isDotUnderscore
      ((List.intercalate ['_'] (pySplitWs
        ((f.toList.filter (fun c => decide (c.toNat < 128))).map
          (fun c => if c = '/' then ' ' else c)))).filter asciiKeep) = x :: xs := h
  exact pyStrip_head_not _ x xs h'

/--
**C10.** `save_uploaded_file` writes to and returns
`os.path.join(upload_folder, secure_filename(file.filename))`; the
sanitized component contains no `'/'` and is neither `"."` nor `".."`, so
the path is always directly inside the upload folder — a client filename
with separators or `..` components (e.g. `../../etc/passwd`) can never
cause a write outside the upload directory.
-/
theorem save_uploaded_file_safe (upload_folder client : String)
    (h1 : upload_folder ≠ "") (h2 : upload_folder.toList.getLast? ≠ some '/') :
    save_uploaded_file_path upload_folder client =
      upload_folder ++ "/" ++ secure_filename client ∧
    '/' ∉ (secure_filename client).toList ∧
    secure_filename client ≠ "." ∧ secure_filename client ≠ ".." := by
  have hns : '/' ∉ (secure_filename client).toList := secure_filename_no_slash client
  refine ⟨?_, hns, ?_, ?_⟩
  · rw [save_uploaded_file_path, posix_join]
    have hb : ¬ ((secure_filename client).toList.head? = some '/') := by
      intro hh
      apply hns
      cases hl : (secure_filename client).toList with
      | nil =>
        rw [hl] at hh
        exact absurd hh (by simp)
      | cons y ys =>
        have hy : y = '/' := by
          rw [hl] at hh
          simpa using hh
        subst hy
        exact List.mem_cons_self _ ys
    rw [if_neg hb, if_neg (not_or.mpr ⟨h1, h2⟩)]
  · intro h
    have hlist : (secure_filename client).toList = ['.'] := by
      rw [h]
      decide
    exact absurd (secure_filename_head_ok client '.' [] hlist) (by decide)
  · intro h
    have hlist : (secure_filename client).toList = ['.', '.'] := by
      rw [h]
      decide
    exact absurd (secure_filename_head_ok client '.' ['.'] hlist) (by decide)

/-- **C10 witness**: the path-traversal filename of the claim, under a
concrete upload folder. -/
theorem save_uploaded_file_safe_witness :
    save_uploaded_file_path "/app/uploads" "../../etc/passwd" =
      "/app/uploads" ++ "/" ++ secure_filename "../../etc/passwd" ∧
    '/' ∉ (secure_filename "../../etc/passwd").toList ∧
    secure_filename "../../etc/passwd" ≠ "." ∧
    secure_filename "../../etc/passwd" ≠ ".." :=
  save_uploaded_file_safe "/app/uploads" "../../etc/passwd" (by decide) (by decide)

/-- **C3 witness**: `video.MP4` is accepted (case-insensitively), `README`
(no dot) is rejected. -/
theorem allowed_file_spec_witness :
    allowed_file "video.MP4" = true ∧ allowed_file "README" = false := by
  constructor
  · exact (allowed_file_spec "video.MP4").1.mpr
      ⟨"video".toList, "MP4".toList, by decide, by decide, by decide⟩
  · exact (allowed_file_spec "README").2 (by decide)

/--
**C4.** On a valid upload whose stubbed stages all succeed, the store
adapter is invoked exactly once, with the basename of the transcoder's
output path as the object key; the detection job is started referencing
that same key; and the response is `200` carrying exactly the poller's
result payload.
-/
theorem upload_video_success (env : Env) (f : UploadedFile)
    (cp job_id : String) (r : PollResult) (n : Nat) (sleeps : List Nat)
    (hname : f.filename ≠ "") (hallow : allowed_file f.filename = true)
    (hsave : env.save (save_uploaded_file_path env.upload_folder f.filename) =
      Except.ok ())
    (hconv : env.convert_video_to_aws_rekognition
      (save_uploaded_file_path env.upload_folder f.filename) = Except.ok cp)
    (hup : env.s3_upload_file cp S3_BUCKET (basename cp) = Except.ok ())
    (hstart : env.start_face_detection S3_BUCKET (basename cp) = Except.ok job_id)
    (hpoll : poll_face_detection (env.face_detection_script job_id) =
      (PollOutcome.success r, n, sleeps)) :
    upload_video env { file := some f } =
      (HttpOutcome.resp 200 (Body.detection r),
        [Effect.diskWrite (save_uploaded_file_path env.upload_folder f.filename),
         Effect.transcodeCall (save_uploaded_file_path env.upload_folder f.filename),
         Effect.storeCall cp S3_BUCKET (basename cp),
         Effect.startJobCall S3_BUCKET (basename cp),
         Effect.pollCall job_id]) := by
  simp [upload_video, hname, hallow, hsave, hconv, hup,
    process_face_detection, hstart, hpoll]

/-- **C4 witness**: a `.mp4` upload against stubs; the store key and the
job reference are both `video_conv.mp4`, the basename of the stub
transcoder's output `/tmp/out/video_conv.mp4`. -/
theorem upload_video_success_witness :
    upload_video
      { upload_folder := "/app/uploads"
        save := fun _ => Except.ok ()
        convert_video_to_aws_rekognition := fun _ =>
          Except.ok "/tmp/out/video_conv.mp4"
        s3_upload_file := fun _ _ _ => Except.ok ()
        start_face_detection := fun _ _ => Except.ok "job-42"
        face_detection_script := fun _ =>
          [{ JobStatus := "SUCCEEDED", VideoMetadata := some [("Codec", "h264")],
             Faces := some [[("Confidence", "99")]], NextToken := none,
             StatusMessage := none }] }
      { file := some { filename := "demo.mp4" } } =
      (HttpOutcome.resp 200 (Body.detection
          { status := "SUCCEEDED", video_metadata := [("Codec", "h264")],
            faces := [[("Confidence", "99")]], next_token := "" }),
        [Effect.diskWrite ("/app/uploads" ++ "/" ++ secure_filename "demo.mp4"),
         Effect.transcodeCall ("/app/uploads" ++ "/" ++ secure_filename "demo.mp4"),
         Effect.storeCall "/tmp/out/video_conv.mp4" S3_BUCKET "video_conv.mp4",
         Effect.startJobCall S3_BUCKET "video_conv.mp4",
         Effect.pollCall "job-42"]) := by
  have h := upload_video_success
    { upload_folder := "/app/uploads"
      save := fun _ => Except.ok ()
      convert_video_to_aws_rekognition := fun _ =>
        Except.ok "/tmp/out/video_conv.mp4"
      s3_upload_file := fun _ _ _ => Except.ok ()
      start_face_detection := fun _ _ => Except.ok "job-42"
      face_detection_script := fun _ =>
        [{ JobStatus := "SUCCEEDED", VideoMetadata := some [("Codec", "h264")],
           Faces := some [[("Confidence", "99")]], NextToken := none,
           StatusMessage := none }] }
    { filename := "demo.mp4" } "/tmp/out/video_conv.mp4" "job-42"
    { status := "SUCCEEDED", video_metadata := [("Codec", "h264")],
      faces := [[("Confidence", "99")]], next_token := "" }
    1 []
    (by decide) (by decide) rfl rfl rfl rfl (by decide)
  simpa using h

/--
**C5.** A `POST /upload` with no file part, an empty filename, or a
disallowed extension is answered `400` with an empty effect trace: no
disk write, no transcoding call, no storage call, no job submission.
-/
theorem upload_video_rejects (env : Env) (req : UploadRequest)
    (h : req.file = none ∨
      ∃ f, req.file = some f ∧
        (f.filename = "" ∨ allowed_file f.filename = false)) :
    ∃ msg, upload_video env req =
      (HttpOutcome.resp 400 (Body.errorObj msg), []) := by
  rcases h with h | ⟨f, hf, hcase⟩
  · exact ⟨"No file part", by simp [upload_video, h]⟩
  · by_cases hempty : f.filename = ""
    · exact ⟨"No file selected", by simp [upload_video, hf, hempty]⟩
    · rcases hcase with hcase | hext
      · exact absurd hcase hempty
      · refine ⟨"Invalid file type. Allowed types: mp4, mov, avi", ?_⟩
        simp [upload_video, hf, hempty, hext]

/-- **C5 witness**: uploading `clip.txt` is rejected with no side effect. -/
theorem upload_video_rejects_witness :
    ∃ msg, upload_video
      { upload_folder := "/app/uploads"
        save := fun _ => Except.ok ()
        convert_video_to_aws_rekognition := fun p => Except.ok p
        s3_upload_file := fun _ _ _ => Except.ok ()
        start_face_detection := fun _ _ => Except.ok "job-1"
        face_detection_script := fun _ => [] }
      { file := some { filename := "clip.txt" } } =
      (HttpOutcome.resp 400 (Body.errorObj msg), []) :=
  upload_video_rejects _ _
    (Or.inr ⟨{ filename := "clip.txt" }, rfl, Or.inr (by decide)⟩)

/--
**C8.** Once validation passes, a failure in any pipeline stage — local
save, transcoding, storage upload, job submission, or polling — is
answered `500` with exactly the underlying exception's message.
-/
theorem upload_video_error_500 (env : Env) (f : UploadedFile) (m : String)
    (hname : f.filename ≠ "") (hallow : allowed_file f.filename = true)
    (h :
      env.save (save_uploaded_file_path env.upload_folder f.filename) =
        Except.error m ∨
      (env.save (save_uploaded_file_path env.upload_folder f.filename) =
          Except.ok () ∧
        env.convert_video_to_aws_rekognition
          (save_uploaded_file_path env.upload_folder f.filename) =
          Except.error m) ∨
      (∃ cp,
        env.save (save_uploaded_file_path env.upload_folder f.filename) =
          Except.ok () ∧
        env.convert_video_to_aws_rekognition
          (save_uploaded_file_path env.upload_folder f.filename) =
          Except.ok cp ∧
        env.s3_upload_file cp S3_BUCKET (basename cp) = Except.error m) ∨
      (∃ cp,
        env.save (save_uploaded_file_path env.upload_folder f.filename) =
          Except.ok () ∧
        env.convert_video_to_aws_rekognition
          (save_uploaded_file_path env.upload_folder f.filename) =
          Except.ok cp ∧
        env.s3_upload_file cp S3_BUCKET (basename cp) = Except.ok () ∧
        env.start_face_detection S3_BUCKET (basename cp) = Except.error m) ∨
      (∃ cp job_id n sleeps,
        env.save (save_uploaded_file_path env.upload_folder f.filename) =
          Except.ok () ∧
        env.convert_video_to_aws_rekognition
          (save_uploaded_file_path env.upload_folder f.filename) =
          Except.ok cp ∧
        env.s3_upload_file cp S3_BUCKET (basename cp) = Except.ok () ∧
        env.start_face_detection S3_BUCKET (basename cp) = Except.ok job_id ∧
        poll_face_detection (env.face_detection_script job_id) =
          (PollOutcome.failure m, n, sleeps))) :
    (upload_video env { file := some f }).1 =
      HttpOutcome.resp 500 (Body.errorObj m) := by
  rcases h with h1 | ⟨h1, h2⟩ | ⟨cp, h1, h2, h3⟩ | ⟨cp, h1, h2, h3, h4⟩ |
    ⟨cp, job_id, n, sleeps, h1, h2, h3, h4, h5⟩
  · simp [upload_video, hname, hallow, h1]
  · simp [upload_video, hname, hallow, h1, h2]
  · simp [upload_video, hname, hallow, h1, h2, h3]
  · simp [upload_video, hname, hallow, h1, h2, h3,
      process_face_detection, h4]
  · simp [upload_video, hname, hallow, h1, h2, h3,
      process_face_detection, h4, h5]

/-- **C8 witness**: a transcoder that raises `ffmpeg crashed` surfaces as
`500` with that exact message. -/
theorem upload_video_error_500_witness :
    (upload_video
      { upload_folder := "/app/uploads"
        save := fun _ => Except.ok ()
        convert_video_to_aws_rekognition := fun _ =>
          Except.error "ffmpeg crashed"
        s3_upload_file := fun _ _ _ => Except.ok ()
        start_face_detection := fun _ _ => Except.ok "job-1"
        face_detection_script := fun _ => [] }
      { file := some { filename := "demo.mp4" } }).1 =
      HttpOutcome.resp 500 (Body.errorObj "ffmpeg crashed") :=
  upload_video_error_500 _ { filename := "demo.mp4" } "ffmpeg crashed"
    (by decide) (by decide) (Or.inr (Or.inl ⟨rfl, rfl⟩))

/--
**C6.** A `POST /gpt` body whose `input` value is missing or empty is
answered `400` with an error body, and the completion adapter is never
invoked.
-/
theorem gpt_api_rejects_empty (complete : String → Except String (List String))
    (data : List (String × String))
    (h : data.lookup "input" = none ∨ data.lookup "input" = some "") :
    gpt_api complete data =
      (HttpOutcome.resp 400 (Body.errorObj "No input provided"), false) := by
  rcases h with h | h <;> simp [gpt_api, h]

/-- **C6 witness**: the body with `input` bound to the empty string. -/
theorem gpt_api_rejects_empty_witness :
    gpt_api (fun _ => Except.ok ["hi"]) [("input", "")] =
      (HttpOutcome.resp 400 (Body.errorObj "No input provided"), false) :=
  gpt_api_rejects_empty _ _ (Or.inr rfl)

/--
**C7.** A `POST /gpt` with a non-empty `input` whose completion adapter
succeeds is answered `200` with a `response` body holding exactly the
first completion's text.
-/
theorem gpt_api_success (complete : String → Except String (List String))
    (data : List (String × String)) (i t : String) (rest : List String)
    (hi : data.lookup "input" = some i) (hne : i ≠ "")
    (hc : complete i = Except.ok (t :: rest)) :
    gpt_api complete data =
      (HttpOutcome.resp 200 (Body.responseObj t), true) := by
  simp [gpt_api, hi, hne, hc]

/-- **C7 witness**: input `hello` against a stub answering `hi`. -/
theorem gpt_api_success_witness :
    gpt_api (fun _ => Except.ok ["hi"]) [("input", "hello")] =
      (HttpOutcome.resp 200 (Body.responseObj "hi"), true) :=
  gpt_api_success _ _ "hello" "hi" [] rfl (by decide) rfl

end App
